import Mathlib

/-!
Shallow embedding of the zmk-studio keymap-export core: the HID usage
resolver (`HidMapper.getZmkKeyName`, in both of its source versions), the
behavior formatter (`BehaviorMapper.formatBinding` and friends) and the
keymap text generator, together with proofs of the specification claims.
-/

/-- Page constant from HidMapper.ts: USB HID Keyboard/Keypad Page (0x07). -/
def HID_PAGE_KEYBOARD : Nat := 0x07

/-- Page constant from HidMapper.ts: USB HID Consumer Page (0x0C). -/
def HID_PAGE_CONSUMER : Nat := 0x0C

/-- Modelled from the spec: `hid_usage_page_and_id_from_usage` (imported from
`../hid-usages`, not under src/) decodes the 16-bit page of a usage code by a
pure bit shift, per spec section 3 (UsageCode is `(page << 16) | id`). -/
def usagePage (u : Nat) : Nat := (u / 65536) % 65536

/-- Modelled from the spec: the 16-bit id component of a usage code, decoded
by a pure mask, per spec section 3. -/
def usageId (u : Nat) : Nat := u % 65536

/-- JS regex replacement `/[^a-zA-Z0-9]/g → '_'` applied to one character. -/
def mapNonAlnum (c : Char) : Char :=
  if c.isAlphanum then c else '_'

/-- JS regex replacement `/_+/g → '_'`: collapse each maximal run of
underscores to a single underscore.  The boolean records whether the
previously emitted character was an underscore. -/
def collapseUnders : Bool → List Char → List Char
  | _, [] => []
  | prevU, c :: rest =>
    if c = '_' then
      if prevU then collapseUnders true rest
      else '_' :: collapseUnders true rest
    else c :: collapseUnders false rest

/-- JS regex replacement `/^_|_$/g → ''`, head part: drop one leading
underscore if present. -/
def dropHeadU (l : List Char) : List Char :=
  match l with
  | '_' :: rest => rest
  | _ => l

/-- JS regex replacement `/^_|_$/g → ''`, tail part: drop one trailing
underscore if present. -/
def dropLastU (l : List Char) : List Char :=
  (dropHeadU l.reverse).reverse

/-- JS regex replacement `label.replace(/^Keyboard /, '')`: strip one leading
occurrence of the literal text `Keyboard `. -/
def stripKbd : List Char → List Char
  | 'K' :: 'e' :: 'y' :: 'b' :: 'o' :: 'a' :: 'r' :: 'd' :: ' ' :: rest => rest
  | l => l

/-- The fallback transformation at the end of `getZmkKeyName`: strip a leading
`Keyboard ` prefix, map every non-alphanumeric character to an underscore,
collapse underscore runs, trim one leading and one trailing underscore, and
uppercase (the input to `toUpperCase` is ASCII here, so `Char.toUpper`
matches the JS semantics). -/
def fallbackTransform (label : String) : String :=
  String.mk
    ((dropLastU (dropHeadU (collapseUnders false ((stripKbd label.data).map mapNonAlnum)))).map
      Char.toUpper)

/-- The JS regex test `/^[A-Z]$/.test(label)`. -/
def isSingleUpper (label : String) : Bool :=
  match label.data with
  | [c] => c.isUpper
  | _ => false

/-- KEY_NAME_OVERRIDES of the HidMapper version in src/unnamed/part_000,
keyed by long usage-table labels. -/
def KEY_NAME_OVERRIDES_v0 : List (String × String) :=
  [("1 and !", "N1"), ("2 and @", "N2"), ("3 and #", "N3"), ("4 and $", "N4"),
   ("5 and %", "N5"), ("6 and ^", "N6"), ("7 and &", "N7"), ("8 and *", "N8"),
   ("9 and (", "N9"), ("0 and )", "N0"),
   ("Spacebar", "SPACE"), ("Keyboard Return (ENTER)", "ENTER"),
   ("Keyboard Escape", "ESC"), ("Keyboard Delete (Backspace)", "BSPC"),
   ("Keyboard Tab", "TAB"), ("Keyboard Caps Lock", "CAPS"),
   ("Keyboard Left Control", "LCTRL"), ("Keyboard Left Shift", "LSHFT"),
   ("Keyboard Left Alt", "LALT"), ("Keyboard Left GUI", "LGUI"),
   ("Keyboard Right Control", "RCTRL"), ("Keyboard Right Shift", "RSHFT"),
   ("Keyboard Right Alt", "RALT"), ("Keyboard Right GUI", "RGUI"),
   ("Keyboard Right Arrow", "RIGHT"), ("Keyboard Left Arrow", "LEFT"),
   ("Keyboard Down Arrow", "DOWN"), ("Keyboard Up Arrow", "UP"),
   ("Keyboard F1", "F1"), ("Keyboard F2", "F2"), ("Keyboard F3", "F3"),
   ("Keyboard F4", "F4"), ("Keyboard F5", "F5"), ("Keyboard F6", "F6"),
   ("Keyboard F7", "F7"), ("Keyboard F8", "F8"), ("Keyboard F9", "F9"),
   ("Keyboard F10", "F10"), ("Keyboard F11", "F11"), ("Keyboard F12", "F12"),
   ("Keyboard Home", "HOME"), ("Keyboard End", "END"),
   ("Keyboard Page Up", "PG_UP"), ("Keyboard Page Down", "PG_DN"),
   ("Keyboard Insert", "INS"), ("Keyboard Delete Forward", "DEL"),
   ("- and _", "MINUS"), ("= and +", "EQUAL"), ("[ and \x7b", "LBKT"),
   ("] and \x7d", "RBKT"), ("\\ and |", "BSLH"), ("; and :", "SEMI"),
   ("\x27 and \"", "SQT"), ("\x60 and ~", "GRAVE"), (", and <", "COMMA"),
   (". and >", "DOT"), ("/ and ?", "FSLH")]

/-- KEY_NAME_OVERRIDES of the HidMapper version embedded in
src/src/export/HidMapper.test.ts, keyed by the short labels actually
returned by `hid_usage_get_label`. -/
def KEY_NAME_OVERRIDES : List (String × String) :=
  [("1", "N1"), ("2", "N2"), ("3", "N3"), ("4", "N4"), ("5", "N5"),
   ("6", "N6"), ("7", "N7"), ("8", "N8"), ("9", "N9"), ("0", "N0"),
   ("␣", "SPACE"), ("Ret", "ENTER"), ("ESC", "ESC"), ("BkSp", "BSPC"),
   ("TAB", "TAB"), ("CAPS", "CAPS"),
   ("Ctrl", "LCTRL"), ("Shft", "LSHFT"), ("Alt", "LALT"), ("GUI", "LGUI"),
   ("AltG", "RALT"),
   ("→", "RIGHT"), ("←", "LEFT"), ("↓", "DOWN"), ("↑", "UP"),
   ("F1", "F1"), ("F2", "F2"), ("F3", "F3"), ("F4", "F4"), ("F5", "F5"),
   ("F6", "F6"), ("F7", "F7"), ("F8", "F8"), ("F9", "F9"), ("F10", "F10"),
   ("F11", "F11"), ("F12", "F12"),
   ("HOME", "HOME"), ("END", "END"), ("PGUP", "PG_UP"), ("PGDN", "PG_DN"),
   ("INS", "INS"), ("DEL", "DEL"),
   ("-", "MINUS"), ("=", "EQUAL"), ("\x7b", "LBKT"), ("\x7d", "RBKT"),
   ("\\", "BSLH"), (";", "SEMI"), ("\x27", "SQT"), ("\x60", "GRAVE"),
   (",", "COMMA"), (".", "DOT"), ("/", "FSLH")]

/-- The inline `modifierMap` of the HidMapper version embedded in
HidMapper.test.ts, including the `|| null` fallback of the record access. -/
def modifierMap (id : Nat) : Option String :=
  if id = 0xE0 then some "LCTRL"
  else if id = 0xE1 then some "LSHFT"
  else if id = 0xE2 then some "LALT"
  else if id = 0xE3 then some "LGUI"
  else if id = 0xE4 then some "RCTRL"
  else if id = 0xE5 then some "RSHFT"
  else if id = 0xE6 then some "RALT"
  else if id = 0xE7 then some "RGUI"
  else none

/-- HidMapper.getZmkKeyName as embedded in src/src/export/HidMapper.test.ts
(the version with the explicit 0xE0..0xE7 modifier table).  The usage-label
database `hid_usage_get_label` is passed as the `getLabel` parameter; its JS
falsiness test `if (!label)` covers both a missing label and the empty
string. -/
def getZmkKeyName (getLabel : Nat → Nat → Option String) (hidUsage : Nat) : Option String :=
  let page := usagePage hidUsage
  let id := usageId hidUsage
  if page ≠ HID_PAGE_KEYBOARD ∧ page ≠ HID_PAGE_CONSUMER then none
  else if page = HID_PAGE_KEYBOARD ∧ 0xE0 ≤ id ∧ id ≤ 0xE7 then modifierMap id
  else
    match getLabel page id with
    | none => none
    | some label =>
      if label = "" then none
      else
        match KEY_NAME_OVERRIDES.lookup label with
        | some name => some name
        | none =>
          if isSingleUpper label then some label
          else some (fallbackTransform label)

/-- HidMapper.getZmkKeyName from src/unnamed/part_000 (the version without a
modifier special case, with the long-label override table). -/
def getZmkKeyName_v0 (getLabel : Nat → Nat → Option String) (hidUsage : Nat) : Option String :=
  let page := usagePage hidUsage
  let id := usageId hidUsage
  if page ≠ HID_PAGE_KEYBOARD ∧ page ≠ HID_PAGE_CONSUMER then none
  else
    match getLabel page id with
    | none => none
    | some label =>
      if label = "" then none
      else
        match KEY_NAME_OVERRIDES_v0.lookup label with
        | some name => some name
        | none =>
          if isSingleUpper label then some label
          else some (fallbackTransform label)

example :
    getZmkKeyName (fun _ _ => none) ((0x07 <<< 16) + 0xE4) = some "RCTRL" := by decide

example :
    getZmkKeyName (fun p i => if p = 7 then if i = 4 then some "A" else none else none)
      ((0x07 <<< 16) + 0x04) = some "A" := by decide

example :
    getZmkKeyName (fun p i => if p = 7 then if i = 0x35 then some "\x60" else none else none)
      ((0x07 <<< 16) + 0x35) = some "GRAVE" := by decide

example :
    getZmkKeyName (fun p i => if p = 7 then if i = 0x53 then some "Keypad Num Lock and Clear" else none else none)
      ((0x07 <<< 16) + 0x53) = some "KEYPAD_NUM_LOCK_AND_CLEAR" := by decide

example :
    getZmkKeyName (fun p i => if p = 7 then if i = 0x99 then some "~" else none else none)
      ((0x07 <<< 16) + 0x99) = some "" := by decide

example :
    getZmkKeyName_v0 (fun p i => if p = 7 then if i = 0xE4 then some "Keyboard Right Control" else none else none)
      ((0x07 <<< 16) + 0xE4) = some "RCTRL" := by decide

example : getZmkKeyName (fun _ _ => some "X") ((0x01 <<< 16) + 0x01) = none := by decide

/-- Behavior record from types.ts, as used by BehaviorMapper.ts. -/
structure Behavior where
  id : Nat
  code : String
  displayName : String
  paramCount : Nat
  description : String
deriving DecidableEq, Repr

/-- Binding record from types.ts: `param2` may be absent (`null`). -/
structure Binding where
  behaviorId : Nat
  param1 : Nat
  param2 : Option Nat
  position : Nat
deriving DecidableEq, Repr

/-- The fixed BEHAVIORS registry contents of BehaviorMapper.ts, as an
association list in source order. -/
def behaviorsList : List (Nat × Behavior) :=
  [(0, ⟨0, "trans", "Transparent", 0, "Pass through to lower layer"⟩),
   (1, ⟨1, "kp", "Key Press", 1, "Basic key press"⟩),
   (2, ⟨2, "mt", "Mod-Tap", 2, "Modifier when held, key when tapped"⟩),
   (3, ⟨3, "lt", "Layer-Tap", 2, "Layer when held, key when tapped"⟩),
   (4, ⟨4, "mo", "Momentary Layer", 1, "Activate layer while held"⟩),
   (5, ⟨5, "tog", "Toggle Layer", 1, "Toggle layer on/off"⟩),
   (6, ⟨6, "bt", "Bluetooth", 1, "Bluetooth control"⟩)]

/-- `BEHAVIORS.get(id)` of BehaviorMapper.ts (a `Map` lookup). -/
def BEHAVIORS (id : Nat) : Option Behavior :=
  behaviorsList.lookup id

/-- JS `x || y` on a nullable string `x`: the fallback is taken when `x` is
null or the empty string (both falsy). -/
def strOrElse (x : Option String) (d : String) : String :=
  match x with
  | some s => if s = "" then d else s
  | none => d

/-- JS `value.toString(16)`: lowercase hexadecimal rendering. -/
def hexString (n : Nat) : String :=
  String.mk (Nat.toDigits 16 n)

/-- BehaviorMapper.formatParam: key-name resolution for kp/mt parameters,
decimal rendering for mo/tog and the bt fallthrough. -/
def formatParam (value : Nat) (behavior : Behavior) (getKeyName : Nat → Option String) : String :=
  if behavior.code = "kp" ∨ behavior.code = "mt" then
    strOrElse (getKeyName value) ("/* HID 0x" ++ hexString value ++ " */")
  else if behavior.code = "mo" ∨ behavior.code = "tog" then
    toString value
  else
    toString value

/-- BehaviorMapper.formatBinding: renders one binding into ZMK DeviceTree
syntax, degrading unknown behavior ids and unresolved usages to inline
comment markers. -/
def formatBinding (binding : Binding) (getKeyName : Nat → Option String) : String :=
  match BEHAVIORS binding.behaviorId with
  | none => "/* Unknown behavior " ++ toString binding.behaviorId ++ " */"
  | some behavior =>
    if behavior.code = "trans" then "&trans"
    else if behavior.paramCount = 1 then
      "&" ++ behavior.code ++ " " ++ formatParam binding.param1 behavior getKeyName
    else if behavior.paramCount = 2 then
      if behavior.code = "lt" then
        let layerNum := toString binding.param1
        let keyName :=
          match binding.param2 with
          | some p2 => strOrElse (getKeyName p2) ("/* HID 0x" ++ hexString p2 ++ " */")
          | none => "/* missing key */"
        "&lt " ++ layerNum ++ " " ++ keyName
      else
        let p1 := formatParam binding.param1 behavior getKeyName
        let p2 :=
          match binding.param2 with
          | some v => formatParam v behavior getKeyName
          | none => "/* missing param2 */"
        "&" ++ behavior.code ++ " " ++ p1 ++ " " ++ p2
    else "&" ++ behavior.code

/-- The mock resolver of BehaviorMapper.test.ts. -/
def mockGetKeyName (hidUsage : Nat) : Option String :=
  if hidUsage = 0x04 then some "Q"
  else if hidUsage = 0x1A then some "W"
  else if hidUsage = 0x08 then some "E"
  else if hidUsage = 0x2C then some "SPACE"
  else if hidUsage = 0xE0 then some "LCTRL"
  else if hidUsage = 0x2B then some "TAB"
  else none

example : formatBinding ⟨0, 0, none, 0⟩ mockGetKeyName = "&trans" := by decide
example : formatBinding ⟨1, 0x04, none, 0⟩ mockGetKeyName = "&kp Q" := by decide
example : formatBinding ⟨2, 0xE0, some 0x04, 0⟩ mockGetKeyName = "&mt LCTRL Q" := by decide
example : formatBinding ⟨3, 1, some 0x2B, 0⟩ mockGetKeyName = "&lt 1 TAB" := by decide
example : formatBinding ⟨4, 1, none, 0⟩ mockGetKeyName = "&mo 1" := by decide
example : formatBinding ⟨5, 2, none, 0⟩ mockGetKeyName = "&tog 2" := by decide
example : formatBinding ⟨6, 0, none, 0⟩ mockGetKeyName = "&bt 0" := by decide
example : formatBinding ⟨999, 0, none, 0⟩ mockGetKeyName = "/* Unknown behavior 999 */" := by decide
example : formatBinding ⟨1, 0xFF, none, 0⟩ mockGetKeyName = "&kp /* HID 0xff */" := by decide

/-- Layer record from types.ts. -/
structure Layer where
  id : Nat
  label : String
  bindings : List Binding
deriving Repr

/-- Modelled from the spec: KeymapGenerator.ts is not under src/ (only its
tests are).  Per spec section 4.3, `generateLayer` first sorts the bindings
of a layer by ascending `position`. -/
def sortBindings (bs : List Binding) : List Binding :=
  List.insertionSort (fun a b => a.position ≤ b.position) bs

/-- Modelled from the spec: the fixed-width row layout of spec section 4.3,
whitespace-separated tokens in rows of 6 each, with only the final row
shorter. -/
def chunk6 {α : Type} : List α → List (List α)
  | [] => []
  | [a] => [[a]]
  | [a, b] => [[a, b]]
  | [a, b, c] => [[a, b, c]]
  | [a, b, c, d] => [[a, b, c, d]]
  | [a, b, c, d, e] => [[a, b, c, d, e]]
  | a :: b :: c :: d :: e :: f :: rest => [a, b, c, d, e, f] :: chunk6 rest

/-- Modelled from the spec: the rows of binding tokens emitted for one layer,
each binding formatted via `formatBinding` with the injected resolver. -/
def layerRows (layer : Layer) (resolver : Nat → Option String) : List (List String) :=
  chunk6 ((sortBindings layer.bindings).map (fun b => formatBinding b resolver))

/-- Modelled from the spec: `identifierFromLabel` in lowercase mode (spec
section 4.3) — collapse non-alphanumeric runs to one underscore, trim, and
lowercase. -/
def lowerIdent (label : String) : String :=
  String.mk
    ((dropLastU (dropHeadU (collapseUnders false (label.data.map mapNonAlnum)))).map
      Char.toLower)

/-- Modelled from the spec: KeymapGenerator.generateLayer — a DeviceTree
child node named `<lower_ident>_layer` holding the layer label and the
`bindings = < ... >;` block, one row of at most 6 tokens per text line. -/
def generateLayer (layer : Layer) (resolver : Nat → Option String) : String :=
  "    " ++ lowerIdent layer.label ++ "_layer \x7b\n" ++
  "      label = \"" ++ layer.label ++ "\";\n" ++
  "      bindings = <\n" ++
  String.intercalate "\n" ((layerRows layer resolver).map (fun row => "        " ++ String.intercalate " " row)) ++
  "\n      >;\n    \x7d;\n"

/-- Heap model for the BehaviorMapper module state: the module-level
BEHAVIORS registry plus the Map objects handed out to callers, addressed by
allocation index. -/
structure BehaviorStore where
  regContents : List (Nat × Behavior)
  allocated : List (List (Nat × Behavior))
deriving Repr

/-- The store at module initialization: the registry holds the 7 fixed
entries and no caller-visible copy exists yet. -/
def initStore : BehaviorStore :=
  ⟨behaviorsList, []⟩

/-- BehaviorMapper.getAllBehaviors: `return new Map(BEHAVIORS)` — allocate a
fresh Map object holding a copy of the current registry contents and return
a reference to it. -/
def getAllBehaviors (s : BehaviorStore) : Nat × BehaviorStore :=
  (s.allocated.length, ⟨s.regContents, s.allocated ++ [s.regContents]⟩)

/-- Contents of the caller-visible Map object at an address. -/
def contentsAt (s : BehaviorStore) (addr : Nat) : Option (List (Nat × Behavior)) :=
  s.allocated[addr]?

/-- A caller mutating the Map object it was handed: replace the contents of
the allocated object at `addr` (a no-op for addresses never handed out). -/
def mutateAt (s : BehaviorStore) (addr : Nat) (f : List (Nat × Behavior) → List (Nat × Behavior)) : BehaviorStore :=
  match s.allocated[addr]? with
  | some m => ⟨s.regContents, s.allocated.set addr (f m)⟩
  | none => s

/-- BehaviorMapper.formatBinding reading the registry out of an explicit
store, used to state that caller-side mutation cannot change formatting. -/
def formatBindingIn (s : BehaviorStore) (binding : Binding) (getKeyName : Nat → Option String) : String :=
  match s.regContents.lookup binding.behaviorId with
  | none => "/* Unknown behavior " ++ toString binding.behaviorId ++ " */"
  | some behavior =>
    if behavior.code = "trans" then "&trans"
    else if behavior.paramCount = 1 then
      "&" ++ behavior.code ++ " " ++ formatParam binding.param1 behavior getKeyName
    else if behavior.paramCount = 2 then
      if behavior.code = "lt" then
        let layerNum := toString binding.param1
        let keyName :=
          match binding.param2 with
          | some p2 => strOrElse (getKeyName p2) ("/* HID 0x" ++ hexString p2 ++ " */")
          | none => "/* missing key */"
        "&lt " ++ layerNum ++ " " ++ keyName
      else
        let p1 := formatParam binding.param1 behavior getKeyName
        let p2 :=
          match binding.param2 with
          | some v => formatParam v behavior getKeyName
          | none => "/* missing param2 */"
        "&" ++ behavior.code ++ " " ++ p1 ++ " " ++ p2
    else "&" ++ behavior.code

example :
    layerRows ⟨0, "Test", [⟨0, 0, none, 2⟩, ⟨1, (0x07 <<< 16) + 0x04, none, 0⟩, ⟨1, (0x07 <<< 16) + 0x05, none, 1⟩]⟩
      (getZmkKeyName (fun p i => if p = 7 then if i = 4 then some "A" else none else if i = 5 then some "B" else none)) =
    [["&kp A", "&kp /* HID 0x70005 */", "&trans"]] := by decide

example :
    (layerRows ⟨0, "Full", (List.range 12).map (fun i => ⟨0, 0, none, i⟩)⟩ (fun _ => none)).length = 2 := by decide

/-- The fixed 8-entry modifier table of the spec, indexed by `id - 0xE0`. -/
def modifierNames : List String :=
  ["LCTRL", "LSHFT", "LALT", "LGUI", "RCTRL", "RSHFT", "RALT", "RGUI"]

/-- C1: for every usage code whose decoded page is the Keyboard page (0x07)
and whose decoded id is in 0xE0..0xE7, `getZmkKeyName` returns the modifier
name selected by `id - 0xE0` from the fixed table LCTRL, LSHFT, LALT, LGUI,
RCTRL, RSHFT, RALT, RGUI, for every usage-label database (hence without
consulting it). -/
theorem getZmkKeyName_modifier_table (getLabel : Nat → Nat → Option String) (u : Nat)
    (hp : usagePage u = 0x07) (h1 : 0xE0 ≤ usageId u) (h2 : usageId u ≤ 0xE7) :
    getZmkKeyName getLabel u = modifierNames[usageId u - 0xE0]? := by
  have hcond : ¬(usagePage u ≠ HID_PAGE_KEYBOARD ∧ usagePage u ≠ HID_PAGE_CONSUMER) := by
    simp [hp, HID_PAGE_KEYBOARD]
  have hmod : usagePage u = HID_PAGE_KEYBOARD ∧ 0xE0 ≤ usageId u ∧ usageId u ≤ 0xE7 :=
    ⟨hp, h1, h2⟩
  unfold getZmkKeyName
  rw [if_neg hcond, if_pos hmod]
  set n := usageId u with hn
  interval_cases n <;> decide

/-- Witness for C1 at the usage code `(0x07 << 16) | 0xE4`, which resolves to
RCTRL under the empty database. -/
theorem getZmkKeyName_modifier_table_witness :
    usagePage ((0x07 <<< 16) + 0xE4) = 0x07 ∧ 0xE0 ≤ usageId ((0x07 <<< 16) + 0xE4) ∧
    usageId ((0x07 <<< 16) + 0xE4) ≤ 0xE7 ∧
    getZmkKeyName (fun _ _ => none) ((0x07 <<< 16) + 0xE4) = some "RCTRL" :=
  ⟨by decide, by decide, by decide, by
    have h := getZmkKeyName_modifier_table (fun _ _ => none) ((0x07 <<< 16) + 0xE4)
      (by decide) (by decide) (by decide)
    simpa using h⟩

/-- C2 (code bug): on a database labelling Keyboard-page id 0x99 with the
all-punctuation label `~` — present, not overridden, not a single uppercase
letter, and transforming to the empty string — both source versions of
`getZmkKeyName` return the empty string `some ""`, not `none` as the
specification requires. -/
theorem getZmkKeyName_empty_string_result :
    getZmkKeyName (fun p i => if p = 7 then if i = 0x99 then some "~" else none else none)
      ((0x07 <<< 16) + 0x99) = some "" ∧
    getZmkKeyName_v0 (fun p i => if p = 7 then if i = 0x99 then some "~" else none else none)
      ((0x07 <<< 16) + 0x99) = some "" ∧
    (some "" : Option String) ≠ none := by
  refine ⟨by decide, by decide, by decide⟩

/-- C3: for every binding whose behaviorId is not one of the registered ids
0..6 and every resolver, `formatBinding` returns exactly the inline comment
`/* Unknown behavior <id> */` (decimal id); being a total function it never
aborts. -/
theorem formatBinding_unknown_behavior (b : Binding) (r : Nat → Option String)
    (h : 7 ≤ b.behaviorId) :
    formatBinding b r = "/* Unknown behavior " ++ toString b.behaviorId ++ " */" := by
  obtain ⟨n, hn⟩ : ∃ n, b.behaviorId = n + 7 := ⟨b.behaviorId - 7, by omega⟩
  have hB : BEHAVIORS b.behaviorId = none := by rw [hn]; rfl
  unfold formatBinding
  rw [hB]

/-- Witness for C3 at behavior id 999. -/
theorem formatBinding_unknown_behavior_witness :
    7 ≤ (999 : Nat) ∧
    formatBinding ⟨999, 0, none, 0⟩ (fun _ => none) = "/* Unknown behavior 999 */" :=
  ⟨by decide, by
    have h := formatBinding_unknown_behavior ⟨999, 0, none, 0⟩ (fun _ => none) (by decide)
    simpa using h⟩

/-- C7: for every usage code whose decoded page is neither 0x07 (Keyboard)
nor 0x0C (Consumer), both source versions of `getZmkKeyName` return none,
for every database. -/
theorem getZmkKeyName_other_pages (getLabel : Nat → Nat → Option String) (u : Nat)
    (h7 : usagePage u ≠ 0x07) (hc : usagePage u ≠ 0x0C) :
    getZmkKeyName getLabel u = none ∧ getZmkKeyName_v0 getLabel u = none := by
  refine ⟨?_, ?_⟩
  · unfold getZmkKeyName
    rw [if_pos ⟨h7, hc⟩]
  · unfold getZmkKeyName_v0
    rw [if_pos ⟨h7, hc⟩]

/-- Witness for C7 at the Generic-Desktop usage `(0x01 << 16) | 0x01`, under
a database that labels everything. -/
theorem getZmkKeyName_other_pages_witness :
    usagePage ((0x01 <<< 16) + 0x01) ≠ 0x07 ∧ usagePage ((0x01 <<< 16) + 0x01) ≠ 0x0C ∧
    getZmkKeyName (fun _ _ => some "X") ((0x01 <<< 16) + 0x01) = none ∧
    getZmkKeyName_v0 (fun _ _ => some "X") ((0x01 <<< 16) + 0x01) = none :=
  ⟨by decide, by decide,
   (getZmkKeyName_other_pages (fun _ _ => some "X") ((0x01 <<< 16) + 0x01) (by decide) (by decide)).1,
   (getZmkKeyName_other_pages (fun _ _ => some "X") ((0x01 <<< 16) + 0x01) (by decide) (by decide)).2⟩

/-- C9 (counterexample): the two `getZmkKeyName` implementations are not
extensionally equal — under the empty database the Keyboard-page modifier
usage `(0x07 << 16) | 0xE4` resolves to RCTRL in the test-file version but
to none in the part_000 version. -/
theorem getZmkKeyName_versions_differ_cex :
    getZmkKeyName (fun _ _ => none) ((0x07 <<< 16) + 0xE4) ≠
      getZmkKeyName_v0 (fun _ _ => none) ((0x07 <<< 16) + 0xE4) := by decide

/-- C9 (amended): the two implementations do agree on every usage code whose
decoded page is neither 0x07 nor 0x0C, and on every Keyboard/Consumer-page
usage outside the Keyboard modifier range 0xE0..0xE7 whose label the
database does not supply. -/
theorem getZmkKeyName_versions_agree (getLabel : Nat → Nat → Option String) (u : Nat)
    (h : (usagePage u ≠ 0x07 ∧ usagePage u ≠ 0x0C) ∨
         (getLabel (usagePage u) (usageId u) = none ∧
          ¬(usagePage u = 0x07 ∧ 0xE0 ≤ usageId u ∧ usageId u ≤ 0xE7))) :
    getZmkKeyName getLabel u = getZmkKeyName_v0 getLabel u := by
  rcases h with ⟨h7, hc⟩ | ⟨hl, hm⟩
  · unfold getZmkKeyName getZmkKeyName_v0
    rw [if_pos ⟨h7, hc⟩, if_pos ⟨h7, hc⟩]
  · unfold getZmkKeyName getZmkKeyName_v0
    simp only [HID_PAGE_KEYBOARD, HID_PAGE_CONSUMER]
    by_cases hout : usagePage u ≠ 7 ∧ usagePage u ≠ 12
    · rw [if_pos hout, if_pos hout]
    · rw [if_neg hout, if_neg hout, if_neg hm, hl]

/-- Witness for the amended C9 at the Generic-Desktop usage
`(0x01 << 16) | 0x01`. -/
theorem getZmkKeyName_versions_agree_witness :
    usagePage ((0x01 <<< 16) + 0x01) ≠ 0x07 ∧
    getZmkKeyName (fun _ _ => some "X") ((0x01 <<< 16) + 0x01) =
      getZmkKeyName_v0 (fun _ _ => some "X") ((0x01 <<< 16) + 0x01) :=
  ⟨by decide,
   getZmkKeyName_versions_agree (fun _ _ => some "X") ((0x01 <<< 16) + 0x01)
     (Or.inl ⟨by decide, by decide⟩)⟩

/-- Resolution of a numeric key parameter with the hex-usage comment-marker
fallback, as performed by `formatParam` for kp/mt parameters: the resolver's
name when it returns a non-empty string, else `/* HID 0x<hex> */`. -/
def resolveOrHex (r : Nat → Option String) (v : Nat) : String :=
  strOrElse (r v) ("/* HID 0x" ++ hexString v ++ " */")

/-- C4: layer-tap (behaviorId 3) renders `&lt <decimal param1> <key>` where
the key is the resolver's non-empty result for param2, the hex marker when
param2 is present but unresolved (resolver returns none or the empty
string), and the missing-key marker when param2 is absent; mod-tap
(behaviorId 2) renders `&mt <p1> <p2>` with both parameters resolved with
the hex-marker fallback and a missing-param2 marker for an absent param2. -/
theorem formatBinding_lt_mt (b : Binding) (r : Nat → Option String) :
    (b.behaviorId = 3 →
      (∀ p2 s, b.param2 = some p2 → r p2 = some s → s ≠ "" →
        formatBinding b r = "&lt " ++ toString b.param1 ++ " " ++ s) ∧
      (∀ p2, b.param2 = some p2 → (r p2 = none ∨ r p2 = some "") →
        formatBinding b r =
          "&lt " ++ toString b.param1 ++ " " ++ ("/* HID 0x" ++ hexString p2 ++ " */")) ∧
      (b.param2 = none →
        formatBinding b r = "&lt " ++ toString b.param1 ++ " " ++ "/* missing key */")) ∧
    (b.behaviorId = 2 →
      (∀ p2, b.param2 = some p2 →
        formatBinding b r = "&mt " ++ resolveOrHex r b.param1 ++ " " ++ resolveOrHex r p2) ∧
      (b.param2 = none →
        formatBinding b r =
          "&mt " ++ resolveOrHex r b.param1 ++ " " ++ "/* missing param2 */")) := by
  constructor
  · intro h3
    have hB : BEHAVIORS b.behaviorId =
        some ⟨3, "lt", "Layer-Tap", 2, "Layer when held, key when tapped"⟩ := by
      rw [h3]; rfl
    refine ⟨?_, ?_, ?_⟩
    · intro p2 s hp2 hr hs
      simp [formatBinding, hB, hp2, strOrElse, hr, hs]
    · intro p2 hp2 hr
      rcases hr with hr | hr <;>
        simp [formatBinding, hB, hp2, strOrElse, hr]
    · intro hp2
      simp [formatBinding, hB, hp2]
  · intro h2
    have hB : BEHAVIORS b.behaviorId =
        some ⟨2, "mt", "Mod-Tap", 2, "Modifier when held, key when tapped"⟩ := by
      rw [h2]; rfl
    constructor
    · intro p2 hp2
      simp [formatBinding, hB, hp2, formatParam, resolveOrHex]
    · intro hp2
      simp [formatBinding, hB, hp2, formatParam, resolveOrHex]

/-- Witness for C4: an `&lt 1 TAB`, an `&lt 1 /* HID 0xff */` and an
`&mt LCTRL Q` rendering under the mock resolver. -/
theorem formatBinding_lt_mt_witness :
    formatBinding ⟨3, 1, some 0x2B, 0⟩ mockGetKeyName = "&lt " ++ toString (1 : Nat) ++ " " ++ "TAB" ∧
    formatBinding ⟨3, 1, some 0xFF, 0⟩ mockGetKeyName =
      "&lt " ++ toString (1 : Nat) ++ " " ++ ("/* HID 0x" ++ hexString 0xFF ++ " */") ∧
    formatBinding ⟨2, 0xE0, some 0x04, 0⟩ mockGetKeyName =
      "&mt " ++ resolveOrHex mockGetKeyName 0xE0 ++ " " ++ resolveOrHex mockGetKeyName 0x04 :=
  ⟨((formatBinding_lt_mt ⟨3, 1, some 0x2B, 0⟩ mockGetKeyName).1 (by decide)).1 0x2B "TAB"
      (by decide) (by decide) (by decide),
   ((formatBinding_lt_mt ⟨3, 1, some 0xFF, 0⟩ mockGetKeyName).1 (by decide)).2.1 0xFF
      (by decide) (Or.inl (by decide)),
   ((formatBinding_lt_mt ⟨2, 0xE0, some 0x04, 0⟩ mockGetKeyName).2 (by decide)).1 0x04 (by decide)⟩

/-- C5 (counterexample): with a resolver that returns the empty string,
`formatBinding` on a kp binding substitutes the hex marker even though the
resolver did not return none, so the output is not `"&kp "` followed by the
resolver's result. -/
theorem formatBinding_kp_empty_resolver_cex :
    formatBinding ⟨1, 0x04, none, 0⟩ (fun _ => some "") ≠ "&kp " ++ "" ∧
    formatBinding ⟨1, 0x04, none, 0⟩ (fun _ => some "") = "&kp /* HID 0x4 */" := by
  refine ⟨by decide, by decide⟩

/-- C5 (amended): trans (behaviorId 0) always renders the bare `&trans`;
kp (behaviorId 1) renders `&kp ` followed by the resolver's non-empty result
for param1, with the hex marker when the resolver returns none or the empty
string; mo/tog/bt (behaviorIds 4, 5, 6) render the code followed by param1
as a plain decimal integer, independent of the resolver. -/
theorem formatBinding_trans_kp_layer (b : Binding) (r : Nat → Option String) :
    (b.behaviorId = 0 → formatBinding b r = "&trans") ∧
    (b.behaviorId = 1 →
      (∀ s, r b.param1 = some s → s ≠ "" → formatBinding b r = "&kp " ++ s) ∧
      ((r b.param1 = none ∨ r b.param1 = some "") →
        formatBinding b r = "&kp " ++ ("/* HID 0x" ++ hexString b.param1 ++ " */"))) ∧
    (b.behaviorId = 4 → formatBinding b r = "&mo " ++ toString b.param1) ∧
    (b.behaviorId = 5 → formatBinding b r = "&tog " ++ toString b.param1) ∧
    (b.behaviorId = 6 → formatBinding b r = "&bt " ++ toString b.param1) := by
  refine ⟨?_, ?_, ?_, ?_, ?_⟩
  · intro h0
    have hB : BEHAVIORS b.behaviorId =
        some ⟨0, "trans", "Transparent", 0, "Pass through to lower layer"⟩ := by
      rw [h0]; rfl
    simp [formatBinding, hB]
  · intro h1
    have hB : BEHAVIORS b.behaviorId =
        some ⟨1, "kp", "Key Press", 1, "Basic key press"⟩ := by
      rw [h1]; rfl
    constructor
    · intro s hr hs
      simp [formatBinding, hB, formatParam, strOrElse, hr, hs]
    · intro hr
      rcases hr with hr | hr <;>
        simp [formatBinding, hB, formatParam, strOrElse, hr]
  · intro h4
    have hB : BEHAVIORS b.behaviorId =
        some ⟨4, "mo", "Momentary Layer", 1, "Activate layer while held"⟩ := by
      rw [h4]; rfl
    simp [formatBinding, hB, formatParam]
  · intro h5
    have hB : BEHAVIORS b.behaviorId =
        some ⟨5, "tog", "Toggle Layer", 1, "Toggle layer on/off"⟩ := by
      rw [h5]; rfl
    simp [formatBinding, hB, formatParam]
  · intro h6
    have hB : BEHAVIORS b.behaviorId =
        some ⟨6, "bt", "Bluetooth", 1, "Bluetooth control"⟩ := by
      rw [h6]; rfl
    simp [formatBinding, hB, formatParam]

/-- The position ordering on bindings used by the layer generator. -/
def posLE (a b : Binding) : Prop := a.position ≤ b.position

instance : DecidableRel posLE := fun a b => Nat.decLe a.position b.position

instance : IsTotal Binding posLE := ⟨fun a b => Nat.le_total a.position b.position⟩

instance : IsTrans Binding posLE := ⟨fun _ _ _ h1 h2 => Nat.le_trans h1 h2⟩

theorem chunk6_flatten {α : Type} (l : List α) : (chunk6 l).flatten = l := by
  induction l using chunk6.induct <;> simp_all [chunk6]

theorem chunk6_length {α : Type} (l : List α) : (chunk6 l).length = (l.length + 5) / 6 := by
  induction l using chunk6.induct <;> simp_all [chunk6] <;> omega

theorem chunk6_mem_length {α : Type} (l : List α) :
    ∀ c ∈ chunk6 l, 1 ≤ c.length ∧ c.length ≤ 6 := by
  induction l using chunk6.induct <;> intro c hc <;> simp_all [chunk6] <;>
    rcases hc with rfl | hc <;> simp_all

theorem chunk6_nil_iff {α : Type} (l : List α) : chunk6 l = [] ↔ l = [] := by
  induction l using chunk6.induct <;> simp [chunk6]

theorem chunk6_dropLast_length {α : Type} (l : List α) :
    ∀ c ∈ (chunk6 l).dropLast, c.length = 6 := by
  induction l using chunk6.induct <;> intro c hc <;> simp_all [chunk6]
  case case7 a b d e f g rest ih =>
    rcases hr : chunk6 rest with _ | ⟨r, t⟩
    · rw [hr] at hc
      simp at hc
    · rw [hr] at hc
      have : ([a, b, d, e, f, g] :: r :: t).dropLast = [a, b, d, e, f, g] :: (r :: t).dropLast :=
        rfl
      rw [this] at hc
      rcases List.mem_cons.1 hc with rfl | hc2
      · simp
      · exact ih c (by rw [hr]; exact hc2)

/-- C6: `generateLayer` emits the layer's bindings ordered by ascending
`position` (the emitted token sequence is the formatting of a
position-sorted permutation of the stored bindings), laid out in rows of
exactly 6 tokens with only the final row shorter; 12 bindings give exactly
2 rows and 1..6 bindings give exactly 1 row; the emitted node text is the
header, the rows one per line, and the closing of the bindings block. -/
theorem generateLayer_rows_correct (layer : Layer) (r : Nat → Option String) :
    List.Perm (sortBindings layer.bindings) layer.bindings ∧
    List.Sorted posLE (sortBindings layer.bindings) ∧
    (layerRows layer r).flatten = (sortBindings layer.bindings).map (fun b => formatBinding b r) ∧
    (∀ row ∈ (layerRows layer r).dropLast, row.length = 6) ∧
    (∀ row ∈ layerRows layer r, 1 ≤ row.length ∧ row.length ≤ 6) ∧
    (layer.bindings.length = 12 → (layerRows layer r).length = 2) ∧
    (1 ≤ layer.bindings.length → layer.bindings.length ≤ 6 → (layerRows layer r).length = 1) ∧
    generateLayer layer r =
      "    " ++ lowerIdent layer.label ++ "_layer \x7b\n" ++
      "      label = \"" ++ layer.label ++ "\";\n" ++
      "      bindings = <\n" ++
      String.intercalate "\n"
        ((layerRows layer r).map (fun row => "        " ++ String.intercalate " " row)) ++
      "\n      >;\n    \x7d;\n" := by
  have hperm : List.Perm (sortBindings layer.bindings) layer.bindings :=
    List.perm_insertionSort posLE layer.bindings
  have hlen : (sortBindings layer.bindings).length = layer.bindings.length :=
    hperm.length_eq
  refine ⟨hperm, List.sorted_insertionSort posLE layer.bindings, chunk6_flatten _,
    chunk6_dropLast_length _, chunk6_mem_length _, ?_, ?_, rfl⟩
  · intro h12
    unfold layerRows
    rw [chunk6_length, List.length_map, hlen, h12]
  · intro h1 h6
    unfold layerRows
    rw [chunk6_length, List.length_map, hlen]
    omega

/-- Witness for C6: a 12-binding layer yields 2 rows, and a 3-binding layer
stored in descending position order yields 1 row whose tokens are in
ascending position order. -/
theorem generateLayer_rows_correct_witness :
    (layerRows ⟨0, "Full", (List.range 12).map (fun i => ⟨0, 0, none, i⟩)⟩ (fun _ => none)).length = 2 ∧
    (layerRows ⟨0, "Default", [⟨0, 0, none, 2⟩, ⟨1, 4, none, 0⟩, ⟨1, 5, none, 1⟩]⟩
      (fun n => if n = 4 then some "A" else if n = 5 then some "B" else none)).length = 1 ∧
    (layerRows ⟨0, "Default", [⟨0, 0, none, 2⟩, ⟨1, 4, none, 0⟩, ⟨1, 5, none, 1⟩]⟩
      (fun n => if n = 4 then some "A" else if n = 5 then some "B" else none)).flatten =
      ["&kp A", "&kp B", "&trans"] :=
  ⟨(generateLayer_rows_correct ⟨0, "Full", (List.range 12).map (fun i => ⟨0, 0, none, i⟩)⟩
      (fun _ => none)).2.2.2.2.2.1 (by decide),
   (generateLayer_rows_correct ⟨0, "Default", [⟨0, 0, none, 2⟩, ⟨1, 4, none, 0⟩, ⟨1, 5, none, 1⟩]⟩
      (fun n => if n = 4 then some "A" else if n = 5 then some "B" else none)).2.2.2.2.2.2.1
      (by decide) (by decide),
   by decide⟩

/-- C8: `getAllBehaviors` returns an independent copy of the registry on
every call — the returned Map holds exactly the registry contents (the 7
fixed entries on the initial store), two successive calls return distinct
Map objects, and mutating any returned Map leaves the registry, and with it
the result of every subsequent `formatBinding`, unchanged. -/
theorem getAllBehaviors_defensive_copy :
    (∀ s : BehaviorStore, (getAllBehaviors s).1 ≠ (getAllBehaviors (getAllBehaviors s).2).1) ∧
    (∀ s : BehaviorStore, contentsAt (getAllBehaviors s).2 (getAllBehaviors s).1 = some s.regContents) ∧
    contentsAt (getAllBehaviors initStore).2 (getAllBehaviors initStore).1 = some behaviorsList ∧
    (∀ (s : BehaviorStore) (addr : Nat) (f : List (Nat × Behavior) → List (Nat × Behavior)),
      (mutateAt s addr f).regContents = s.regContents) ∧
    (∀ (s : BehaviorStore) (addr : Nat) (f : List (Nat × Behavior) → List (Nat × Behavior))
      (b : Binding) (r : Nat → Option String),
      formatBindingIn (mutateAt s addr f) b r = formatBindingIn s b r) ∧
    (∀ (b : Binding) (r : Nat → Option String), formatBindingIn initStore b r = formatBinding b r) := by
  have hreg : ∀ (s : BehaviorStore) (addr : Nat) (f : List (Nat × Behavior) → List (Nat × Behavior)),
      (mutateAt s addr f).regContents = s.regContents := by
    intro s addr f
    unfold mutateAt
    cases s.allocated[addr]? <;> rfl
  refine ⟨?_, ?_, ?_, hreg, ?_, ?_⟩
  · intro s
    simp [getAllBehaviors]
  · intro s
    simp [getAllBehaviors, contentsAt]
  · simp [getAllBehaviors, contentsAt, initStore]
  · intro s addr f b r
    unfold formatBindingIn
    rw [hreg]
  · intro b r
    rfl

/-- Characters permitted in an emitted key token: A..Z (codepoints 65..90),
0..9 (48..57) and underscore (95). -/
def isIdentFragChar (c : Char) : Bool :=
  (65 ≤ c.toNat && c.toNat ≤ 90) || (48 ≤ c.toNat && c.toNat ≤ 57) || c.toNat == 95

theorem uint32_le_iff_toNat_le {a b : UInt32} : a ≤ b ↔ a.toNat ≤ b.toNat := by
  rw [UInt32.le_def, BitVec.le_def]
  exact Iff.rfl

theorem isUpper_toNat_bounds {c : Char} (h : c.isUpper = true) :
    65 ≤ c.toNat ∧ c.toNat ≤ 90 := by
  simp only [Char.isUpper, ge_iff_le, Bool.and_eq_true, decide_eq_true_eq] at h
  exact ⟨uint32_le_iff_toNat_le.1 h.1, uint32_le_iff_toNat_le.1 h.2⟩

theorem isLower_toNat_bounds {c : Char} (h : c.isLower = true) :
    97 ≤ c.toNat ∧ c.toNat ≤ 122 := by
  simp only [Char.isLower, ge_iff_le, Bool.and_eq_true, decide_eq_true_eq] at h
  exact ⟨uint32_le_iff_toNat_le.1 h.1, uint32_le_iff_toNat_le.1 h.2⟩

theorem isDigit_toNat_bounds {c : Char} (h : c.isDigit = true) :
    48 ≤ c.toNat ∧ c.toNat ≤ 57 := by
  simp only [Char.isDigit, ge_iff_le, Bool.and_eq_true, decide_eq_true_eq] at h
  exact ⟨uint32_le_iff_toNat_le.1 h.1, uint32_le_iff_toNat_le.1 h.2⟩

theorem toNat_ofNat_valid {n : Nat} (h : n < 55296) : (Char.ofNat n).toNat = n := by
  have hv : n.isValidChar := Or.inl h
  rw [Char.ofNat, dif_pos hv]
  rfl

theorem toNat_toUpper_of_not_lower {c : Char} (h : ¬(97 ≤ c.toNat ∧ c.toNat ≤ 122)) :
    Char.toUpper c = c := by
  rw [Char.toUpper, if_neg h]

theorem toUpper_identFrag {c : Char} (h : c.isAlphanum = true ∨ c = '_') :
    isIdentFragChar (Char.toUpper c) = true := by
  rcases h with h | rfl
  · simp only [Char.isAlphanum, Char.isAlpha, Bool.or_eq_true] at h
    by_cases hl : 97 ≤ c.toNat ∧ c.toNat ≤ 122
    · rw [Char.toUpper, if_pos hl]
      have ht : (Char.ofNat (c.toNat - 32)).toNat = c.toNat - 32 :=
        toNat_ofNat_valid (by omega)
      simp only [isIdentFragChar, ht, Bool.or_eq_true, Bool.and_eq_true, decide_eq_true_eq,
        beq_iff_eq]
      omega
    · rw [toNat_toUpper_of_not_lower hl]
      rcases h with (h | h) | h
      · have := isUpper_toNat_bounds h
        simp only [isIdentFragChar, Bool.or_eq_true, Bool.and_eq_true, decide_eq_true_eq,
          beq_iff_eq]
        omega
      · exact absurd (isLower_toNat_bounds h) hl
      · have := isDigit_toNat_bounds h
        simp only [isIdentFragChar, Bool.or_eq_true, Bool.and_eq_true, decide_eq_true_eq,
          beq_iff_eq]
        omega
  · decide

theorem mem_map_mapNonAlnum {l : List Char} {c : Char} (h : c ∈ l.map mapNonAlnum) :
    c.isAlphanum = true ∨ c = '_' := by
  obtain ⟨d, _, rfl⟩ := List.mem_map.1 h
  unfold mapNonAlnum
  by_cases hd : d.isAlphanum = true
  · rw [if_pos hd]
    exact Or.inl hd
  · rw [if_neg hd]
    exact Or.inr rfl

theorem mem_collapseUnders : ∀ (b : Bool) (l : List Char) (c : Char),
    c ∈ collapseUnders b l → c ∈ l ∨ c = '_' := by
  intro b l
  induction l generalizing b with
  | nil =>
    intro c hc
    simp [collapseUnders] at hc
  | cons d rest ih =>
    intro c hc
    unfold collapseUnders at hc
    by_cases hd : d = '_'
    · rw [if_pos hd] at hc
      cases b with
      | true =>
        rcases ih true c hc with h | h
        · exact Or.inl (List.mem_cons_of_mem _ h)
        · exact Or.inr h
      | false =>
        rcases List.mem_cons.1 hc with rfl | hc2
        · exact Or.inr rfl
        · rcases ih true c hc2 with h | h
          · exact Or.inl (List.mem_cons_of_mem _ h)
          · exact Or.inr h
    · rw [if_neg hd] at hc
      rcases List.mem_cons.1 hc with rfl | hc2
      · exact Or.inl (List.mem_cons_self _ _)
      · rcases ih false c hc2 with h | h
        · exact Or.inl (List.mem_cons_of_mem _ h)
        · exact Or.inr h

theorem mem_dropHeadU {l : List Char} {c : Char} (h : c ∈ dropHeadU l) : c ∈ l := by
  unfold dropHeadU at h
  split at h
  · exact List.mem_cons_of_mem _ h
  · exact h

theorem mem_dropLastU {l : List Char} {c : Char} (h : c ∈ dropLastU l) : c ∈ l := by
  unfold dropLastU at h
  rw [List.mem_reverse] at h
  exact List.mem_reverse.1 (mem_dropHeadU h)

theorem fallbackTransform_ok (label : String) :
    (fallbackTransform label).data.all isIdentFragChar = true := by
  rw [List.all_eq_true]
  intro c hc
  have hc2 : c ∈ (dropLastU (dropHeadU (collapseUnders false
      ((stripKbd label.data).map mapNonAlnum)))).map Char.toUpper := hc
  obtain ⟨d, hd, rfl⟩ := List.mem_map.1 hc2
  apply toUpper_identFrag
  rcases mem_collapseUnders _ _ _ (mem_dropHeadU (mem_dropLastU hd)) with h3 | h3
  · exact mem_map_mapNonAlnum h3
  · exact Or.inr h3

theorem lookup_mem_values {α β : Type} [BEq α] :
    ∀ (l : List (α × β)) (a : α) (b : β), l.lookup a = some b → b ∈ l.map Prod.snd := by
  intro l a b
  induction l with
  | nil =>
    intro h
    simp [List.lookup] at h
  | cons p t ih =>
    obtain ⟨k, v⟩ := p
    intro h
    rw [List.lookup] at h
    cases hak : (a == k) with
    | true =>
      rw [hak] at h
      injection h with h2
      subst h2
      rw [List.map_cons]
      exact List.mem_cons_self _ _
    | false =>
      rw [hak] at h
      exact List.mem_cons_of_mem _ (ih h)

theorem overrides_values_ok :
    KEY_NAME_OVERRIDES.all (fun p => p.2.data.all isIdentFragChar) = true := by decide

theorem overrides_v0_values_ok :
    KEY_NAME_OVERRIDES_v0.all (fun p => p.2.data.all isIdentFragChar) = true := by decide

theorem modifierMap_ok (id : Nat) (s : String) (h : modifierMap id = some s) :
    s.data.all isIdentFragChar = true := by
  unfold modifierMap at h
  split_ifs at h <;>
    first
      | (injection h with h2; subst h2; decide)
      | exact Option.noConfusion h

theorem isSingleUpper_ok {label : String} (h : isSingleUpper label = true) :
    label.data.all isIdentFragChar = true := by
  unfold isSingleUpper at h
  split at h
  · rename_i c heq
    rw [heq, List.all_eq_true]
    intro d hd
    rcases List.mem_singleton.1 hd with rfl
    have hb := isUpper_toNat_bounds h
    simp only [isIdentFragChar, Bool.or_eq_true, Bool.and_eq_true, decide_eq_true_eq, beq_iff_eq]
    omega
  · cases h

/-- C10: whenever either source version of `getZmkKeyName` returns a name,
every character of that name is an uppercase letter A..Z, a digit 0..9, or
an underscore, for every usage code and every usage-label database. -/
theorem getZmkKeyName_charset (getLabel : Nat → Nat → Option String) (u : Nat) (s : String) :
    (getZmkKeyName getLabel u = some s → s.data.all isIdentFragChar = true) ∧
    (getZmkKeyName_v0 getLabel u = some s → s.data.all isIdentFragChar = true) := by
  constructor
  · intro h
    unfold getZmkKeyName at h
    simp only [] at h
    split at h
    · exact Option.noConfusion h
    · split at h
      · exact modifierMap_ok _ _ h
      · split at h
        · exact Option.noConfusion h
        · split at h
          · exact Option.noConfusion h
          · split at h
            · rename_i label hlabel name hlook
              injection h with h2
              subst h2
              have hmem := lookup_mem_values _ _ _ hlook
              have hall := overrides_values_ok
              rw [List.all_eq_true] at hall
              obtain ⟨p, hp, hpe⟩ := List.mem_map.1 hmem
              rw [← hpe]
              exact hall p hp
            · split at h
              · rename_i hsingle
                injection h with h2
                subst h2
                exact isSingleUpper_ok hsingle
              · injection h with h2
                subst h2
                exact fallbackTransform_ok _
  · intro h
    unfold getZmkKeyName_v0 at h
    simp only [] at h
    split at h
    · exact Option.noConfusion h
    · split at h
      · exact Option.noConfusion h
      · split at h
        · exact Option.noConfusion h
        · split at h
          · rename_i label hlabel name hlook
            injection h with h2
            subst h2
            have hmem := lookup_mem_values _ _ _ hlook
            have hall := overrides_v0_values_ok
            rw [List.all_eq_true] at hall
            obtain ⟨p, hp, hpe⟩ := List.mem_map.1 hmem
            rw [← hpe]
            exact hall p hp
          · split at h
            · rename_i hsingle
              injection h with h2
              subst h2
              exact isSingleUpper_ok hsingle
            · injection h with h2
              subst h2
              exact fallbackTransform_ok _

/-- Witness for C10: both versions resolve `(0x07 << 16) | 0x04` to the
single-letter name A, whose characters all lie in the permitted set. -/
theorem getZmkKeyName_charset_witness :
    getZmkKeyName (fun p i => if p = 7 then if i = 4 then some "A" else none else none)
      ((0x07 <<< 16) + 0x04) = some "A" ∧
    getZmkKeyName_v0 (fun p i => if p = 7 then if i = 4 then some "A" else none else none)
      ((0x07 <<< 16) + 0x04) = some "A" ∧
    "A".data.all isIdentFragChar = true ∧
    "A".data.all isIdentFragChar = true :=
  ⟨by decide, by decide,
   (getZmkKeyName_charset (fun p i => if p = 7 then if i = 4 then some "A" else none else none)
      ((0x07 <<< 16) + 0x04) "A").1 (by decide),
   (getZmkKeyName_charset (fun p i => if p = 7 then if i = 4 then some "A" else none else none)
      ((0x07 <<< 16) + 0x04) "A").2 (by decide)⟩

/-- Witness for the amended C5: `&trans` with ignored parameters, `&kp Q`,
`&kp /* HID 0xff */`, `&mo 1`, `&tog 2` and `&bt 0` renderings under the
mock resolver. -/
theorem formatBinding_trans_kp_layer_witness :
    formatBinding ⟨0, 5, some 7, 0⟩ mockGetKeyName = "&trans" ∧
    formatBinding ⟨1, 0x04, none, 0⟩ mockGetKeyName = "&kp " ++ "Q" ∧
    formatBinding ⟨1, 0xFF, none, 0⟩ mockGetKeyName =
      "&kp " ++ ("/* HID 0x" ++ hexString 0xFF ++ " */") ∧
    formatBinding ⟨4, 1, none, 0⟩ mockGetKeyName = "&mo " ++ toString (1 : Nat) ∧
    formatBinding ⟨5, 2, none, 0⟩ mockGetKeyName = "&tog " ++ toString (2 : Nat) ∧
    formatBinding ⟨6, 0, none, 0⟩ mockGetKeyName = "&bt " ++ toString (0 : Nat) :=
  ⟨(formatBinding_trans_kp_layer ⟨0, 5, some 7, 0⟩ mockGetKeyName).1 (by decide),
   ((formatBinding_trans_kp_layer ⟨1, 0x04, none, 0⟩ mockGetKeyName).2.1 (by decide)).1 "Q"
     (by decide) (by decide),
   ((formatBinding_trans_kp_layer ⟨1, 0xFF, none, 0⟩ mockGetKeyName).2.1 (by decide)).2
     (Or.inl (by decide)),
   (formatBinding_trans_kp_layer ⟨4, 1, none, 0⟩ mockGetKeyName).2.2.1 (by decide),
   (formatBinding_trans_kp_layer ⟨5, 2, none, 0⟩ mockGetKeyName).2.2.2.1 (by decide),
   (formatBinding_trans_kp_layer ⟨6, 0, none, 0⟩ mockGetKeyName).2.2.2.2 (by decide)⟩
